import Mathlib

/-!
# raw_sync: shared-memory lock primitives — verification of the spec's claims

Shallow embedding of the crate's lock layer:
* `src/lib.rs` — the `Timeout` value type.
* `src/locks/mod.rs` — the `LockResult`/`ReadLockResult` tri-state outcomes,
  `deny_abandoned`, the guard types with their `Drop`/conversion lifecycle and
  the default `rlock`/`try_rlock` implementations of the `LockImpl` trait.
* `src/locks/windows/mod.rs` — the exemplar backend over a named Windows mutex:
  `new`, `from_existing`, `lock`, `release`.

Machine integers are `Nat` with explicit `% 2 ^ 32` where the source uses `u32`.
The OS is abstracted: `WaitForSingleObject` becomes a function from the waited
milliseconds to the reported wait status, the mutex ownership state becomes an
explicit `World` record threaded through the state-changing operations, and the
named-object namespace becomes a function from names to liveness/handles.
-/

/-- `WAIT_OBJECT_0` from winapi: the wait completed cleanly. -/
def WAIT_OBJECT_0 : Nat := 0

/-- `WAIT_ABANDONED` from winapi: the previous holder terminated while holding
the mutex. -/
def WAIT_ABANDONED : Nat := 0x80

/-- `INFINITE` from winapi: the unbounded-wait timeout constant. -/
def INFINITE : Nat := 0xFFFFFFFF

/-- Uppercase hexadecimal rendering of a number, as Rust's `{:X}` format
specifier produces for the wait status embedded in the lock error message. -/
def toHexUpper (n : Nat) : String := String.mk ((Nat.toDigits 16 n).map Char.toUpper)

/-- Outcome of a call to the windows backend's `lock()` (source type
`Result<LockGuard>`, plus the `panic!` exit the body can take): `ok` stands for
`Ok(LockGuard::new(self))`, `panicked` for the `panic!` with its message, and
`err` for the `Err` case with its message. -/
inductive LockCallResult where
  | ok : LockCallResult
  | panicked : String → LockCallResult
  | err : String → LockCallResult
deriving DecidableEq, Repr

/-- The error message built by the windows `lock()` for an unrecognized wait
status (`format!("Failed to aquire lock with value : 0x{:X}", wait_res)`). -/
def lockErrMsg (wait_res : Nat) : String :=
  "Failed to aquire lock with value : 0x" ++ toHexUpper wait_res

/-- The panic message of the windows `lock()` on `WAIT_ABANDONED`. -/
def abandonedPanicMsg : String :=
  "A thread holding the mutex has left it in a poisened state"

/-- `Mutex::lock` from `src/locks/windows/mod.rs` lines 110–123.
`WaitForSingleObject` is the abstracted OS wait on this mutex's handle, mapping
the milliseconds argument to the reported wait status. The body waits with
`INFINITE`, then classifies: `WAIT_OBJECT_0` → `Ok(guard)`, `WAIT_ABANDONED` →
`panic!`, anything else → `Err`. -/
def Mutex.lock (WaitForSingleObject : Nat → Nat) : LockCallResult :=
  let wait_res := WaitForSingleObject INFINITE
  if wait_res = WAIT_OBJECT_0 then
    LockCallResult.ok
  else if wait_res = WAIT_ABANDONED then
    LockCallResult.panicked abandonedPanicMsg
  else
    LockCallResult.err (lockErrMsg wait_res)

/-- `Timeout` from `src/lib.rs`: wait forever, or a bounded `Duration`
(modelled by its whole number of milliseconds, which is what a wait call
consumes from it). -/
inductive Timeout where
  | Infinite : Timeout
  | Val : Nat → Timeout
deriving DecidableEq, Repr

/-- Modelled from the spec: the `try_lock` implementation is absent from `src/`
(the unix backend that implements it is not included, and the windows backend
in `src/locks/windows/mod.rs` predates the `try_lock` method of the `LockImpl`
trait). Per the spec, `try_lock(timeout)` is the bounded variant of `lock()`:
the same OS wait with the timeout converted to milliseconds — `Infinite` maps
to the OS `INFINITE` constant — followed by the same classification of the
reported wait status as `lock()`. -/
def Mutex.try_lock (WaitForSingleObject : Nat → Nat) (timeout : Timeout) : LockCallResult :=
  let millis := match timeout with
    | Timeout.Infinite => INFINITE
    | Timeout.Val ms => ms
  let wait_res := WaitForSingleObject millis
  if wait_res = WAIT_OBJECT_0 then
    LockCallResult.ok
  else if wait_res = WAIT_ABANDONED then
    LockCallResult.panicked abandonedPanicMsg
  else
    LockCallResult.err (lockErrMsg wait_res)

/-- `LockGuard` from `src/locks/mod.rs`: wraps a reference to the lock
(the reference type is the parameter `L`). -/
structure LockGuard (L : Type) where
  lock : L
deriving DecidableEq, Repr

/-- `ReadLockGuard` from `src/locks/mod.rs`: wraps a reference to the lock. -/
structure ReadLockGuard (L : Type) where
  lock : L
deriving DecidableEq, Repr

/-- `LockGuard::into_read_guard` from `src/locks/mod.rs` lines 115–119: takes
the inner lock reference, forgets the source guard (so its destructor never
runs) and wraps the reference in a `ReadLockGuard`. -/
def LockGuard.into_read_guard {L : Type} (self : LockGuard L) : ReadLockGuard L :=
  ReadLockGuard.mk self.lock

/-- `LockResult` from `src/locks/mod.rs` lines 18–22: the tri-state outcome of
an exclusive acquisition. Error values (`Box<dyn Error>`) are modelled by their
message strings. -/
inductive LockResult (L : Type) where
  | Ok : LockGuard L → LockResult L
  | Abandoned : LockGuard L → LockResult L
  | Failed : String → LockResult L
deriving DecidableEq, Repr

/-- `ReadLockResult` from `src/locks/mod.rs` lines 24–28. -/
inductive ReadLockResult (L : Type) where
  | Ok : ReadLockGuard L → ReadLockResult L
  | Abandoned : ReadLockGuard L → ReadLockResult L
  | Failed : String → ReadLockResult L
deriving DecidableEq, Repr

/-- The message `deny_abandoned` wraps into its error on `Abandoned`. -/
def poisonedMsg : String :=
  "A thread holding the mutex has left it in a poisened state"

/-- `LockResult::deny_abandoned` from `src/locks/mod.rs` lines 30–38. -/
def LockResult.deny_abandoned {L : Type} : LockResult L → Except String (LockGuard L)
  | LockResult.Ok guard => Except.ok guard
  | LockResult.Abandoned _ => Except.error poisonedMsg
  | LockResult.Failed err => Except.error err

/-- `ReadLockResult::deny_abandoned` from `src/locks/mod.rs` lines 40–48. -/
def ReadLockResult.deny_abandoned {L : Type} : ReadLockResult L → Except String (ReadLockGuard L)
  | ReadLockResult.Ok guard => Except.ok guard
  | ReadLockResult.Abandoned _ => Except.error poisonedMsg
  | ReadLockResult.Failed err => Except.error err

/-- The OS-side ownership state of one named mutex, as seen by the calling
thread, instrumented with the number of `release()` invocations made on the
handle. `held` is the recursive hold count of the calling thread (a Windows
mutex counts recursive acquisitions; `CREATE_MUTEX_INITIAL_OWNER` starts it
at 1 for the creator). -/
structure World where
  held : Nat
  releaseCalls : Nat
deriving DecidableEq, Repr

/-- `ReleaseMutex` from winapi: returns nonzero `BOOL` and decrements the hold
count when the calling thread holds the mutex, returns 0 and changes nothing
when it does not. -/
def ReleaseMutex (w : World) : Nat × World :=
  if w.held = 0 then (0, w)
  else (1, { w with held := w.held - 1 })

/-- The message `Mutex::release` returns when `ReleaseMutex` fails. -/
def releaseErrMsg : String := "Could not release mutex as we did not own it"

/-- `Mutex::release` from `src/locks/windows/mod.rs` lines 124–133: calls
`ReleaseMutex`; a zero return becomes an error, otherwise `Ok(())`. The
instrumentation counter `releaseCalls` records that one `release()` call
happened. -/
def Mutex.release (w : World) : Except String Unit × World :=
  let r := ReleaseMutex w
  let w1 := { r.2 with releaseCalls := r.2.releaseCalls + 1 }
  if r.1 = 0 then (Except.error releaseErrMsg, w1)
  else (Except.ok (), w1)

/-- How a guard's destructor exits: a normal return, or a panic with a
message (`Result::unwrap` on an `Err`). -/
inductive DropOutcome where
  | ok : DropOutcome
  | panicked : String → DropOutcome
deriving DecidableEq, Repr

/-- `Drop for LockGuard` from `src/locks/mod.rs` lines 106–110:
`self.lock.release().unwrap()` — always calls `release()`, and panics with the
error message if that call fails. -/
def LockGuard.dropRun (w : World) : DropOutcome × World :=
  match Mutex.release w with
  | (Except.ok _, w1) => (DropOutcome.ok, w1)
  | (Except.error e, w1) => (DropOutcome.panicked e, w1)

/-- `Drop for ReadLockGuard` from `src/locks/mod.rs` lines 143–147: identical
body, `self.lock.release().unwrap()`. -/
def ReadLockGuard.dropRun (w : World) : DropOutcome × World :=
  match Mutex.release w with
  | (Except.ok _, w1) => (DropOutcome.ok, w1)
  | (Except.error e, w1) => (DropOutcome.panicked e, w1)

/-- The effect of `LockGuard::into_read_guard` on the OS/world state: the body
only reads the inner reference, calls `std::mem::forget(self)` — so the source
guard's destructor (and hence `release()`) never runs — and constructs the new
guard. It makes no OS call at all. -/
def LockGuard.into_read_guard_world (w : World) : World := w

/-- A value of the `LockImpl` trait object as `src/locks/mod.rs` sees it: the
two required acquisition methods (`release` and `get_inner` play no part in the
default `rlock`/`try_rlock` bodies being verified). -/
structure LockImplModel (L : Type) where
  lock : LockResult L
  try_lock : Timeout → LockResult L

/-- The default `LockImpl::rlock` from `src/locks/mod.rs` lines 79–85:
match on `self.lock()`, converting the guard in the `Ok` and `Abandoned` arms
with `into_read_guard` and passing the `Failed` error through. -/
def LockImplModel.rlock {L : Type} (self : LockImplModel L) : ReadLockResult L :=
  match self.lock with
  | LockResult.Ok guard => ReadLockResult.Ok guard.into_read_guard
  | LockResult.Abandoned guard => ReadLockResult.Abandoned guard.into_read_guard
  | LockResult.Failed err => ReadLockResult.Failed err

/-- The default `LockImpl::try_rlock` from `src/locks/mod.rs` lines 88–94:
the same match over `self.try_lock(timeout)`. -/
def LockImplModel.try_rlock {L : Type} (self : LockImplModel L) (timeout : Timeout) :
    ReadLockResult L :=
  match self.try_lock timeout with
  | LockResult.Ok guard => ReadLockResult.Ok guard.into_read_guard
  | LockResult.Abandoned guard => ReadLockResult.Abandoned guard.into_read_guard
  | LockResult.Failed err => ReadLockResult.Failed err

/-- Spec-side description for the read-acquisition claims: take an exclusive
acquisition outcome and convert its guard to a shared guard, preserving the
Ok/Abandoned/Failed classification. -/
def specConvertToRead {L : Type} : LockResult L → ReadLockResult L
  | LockResult.Ok guard => ReadLockResult.Ok guard.into_read_guard
  | LockResult.Abandoned guard => ReadLockResult.Abandoned guard.into_read_guard
  | LockResult.Failed err => ReadLockResult.Failed err

/-- `size_of::<u32>()`, the record size the windows backend reports and
returns as `bytes_used`. -/
def mutexSizeOf : Nat := 4

/-- The 4 little-endian bytes `*(mem as *mut u32) = v` stores into the shared
record. -/
def writeU32LE (v : Nat) : List Nat :=
  [v % 256, v / 256 % 256, v / 256 ^ 2 % 256, v / 256 ^ 3 % 256]

/-- The `u32` value `*(mem as *mut u32)` reads back from the shared record's 4
little-endian bytes (0 when the record is shorter than 4 bytes, which cannot
happen for a record written by `new`). -/
def readU32LE : List Nat → Nat
  | b0 :: b1 :: b2 :: b3 :: _ => b0 + b1 * 256 + b2 * 256 ^ 2 + b3 * 256 ^ 3
  | _ => 0

/-- The name `new()` derives for the named mutex:
`CString::new(format!("mutex_{}", mutex_id))` at `src/locks/windows/mod.rs`
line 44. -/
def mutexPathNew (mutex_id : Nat) : String := "mutex_" ++ toString mutex_id

/-- The name `from_existing()` derives from the identifier it read:
`CString::new(format!("mutex_{}", mutex_id))` at `src/locks/windows/mod.rs`
line 78. -/
def mutexPathOpen (mutex_id : Nat) : String := "mutex_" ++ toString mutex_id

/-- `CreateMutexExA` with `CREATE_MUTEX_INITIAL_OWNER`, abstracted over the
OS namespace `live` (which names already denote a live object): on a name
collision it yields no handle (`NULL`), which is the condition the `new()` loop
retries on; on success it yields a handle to the fresh object, identified by
its name. -/
def CreateMutexExA (live : String → Bool) (path : String) : Option String :=
  if live path then none else some path

/-- `OpenMutexA`, abstracted over the OS namespace `live` (mapping a name to
the handle of the live object of that name, if any): yields `NULL` (none)
exactly when no object with that name exists. -/
def OpenMutexA (live : String → Option String) (path : String) : Option String :=
  live path

/-- The struct `Mutex` of `src/locks/windows/mod.rs`: the OS object handle and
the protected-data address (`data`, an opaque pointer modelled as `Nat`). -/
structure MutexModel where
  handle : String
  data : Nat
deriving DecidableEq, Repr

/-- What `Mutex::new` produces: the boxed mutex, the bytes written into the
shared record at `mem`, the `bytes_used` it returns, and the OS ownership state
of the freshly created object after `new` ran. -/
structure NewOutcome where
  mutex : MutexModel
  memBytes : List Nat
  bytesUsed : Nat
  world : World
deriving DecidableEq, Repr

/-- `Mutex::new` from `src/locks/windows/mod.rs` lines 35–70. The loop draws
`rand::random::<u32>()` values; the model consumes them from the list
`randoms` (an empty list means the loop would spin forever waiting for more
randomness, modelled as an error the source cannot return). Each draw is a
`u32`, hence the `% 2 ^ 32`. On the first identifier whose `CreateMutexExA`
call yields a handle, the object starts with the creator owning it
(`CREATE_MUTEX_INITIAL_OWNER`: hold count 1); `new` then calls `release()` —
propagating its error with `?` — and writes the identifier into `mem`. -/
def Mutex.new (live : String → Bool) (data : Nat) :
    List Nat → Except String NewOutcome
  | [] => Except.error "model: random stream exhausted"
  | r :: rest =>
    let mutex_id := r % 2 ^ 32
    match CreateMutexExA live (mutexPathNew mutex_id) with
    | none => Mutex.new live data rest
    | some mutex_handle =>
      let w0 : World := { held := 1, releaseCalls := 0 }
      match Mutex.release w0 with
      | (Except.error e, _) => Except.error e
      | (Except.ok _, w1) =>
        Except.ok
          { mutex := { handle := mutex_handle, data := data }
            memBytes := writeU32LE mutex_id
            bytesUsed := mutexSizeOf
            world := w1 }

/-- The attach error message of `from_existing`
(`format!("Failed to open mutex {}", path)`). -/
def openErrMsg (path : String) : String := "Failed to open mutex " ++ path

/-- `Mutex::from_existing` from `src/locks/windows/mod.rs` lines 72–99: read
the `u32` identifier from `mem`, derive the name, open the existing object with
`OpenMutexA`; a `NULL` handle becomes an attach error, otherwise the handle is
wrapped with the protected-data address and returned with `bytes_used`. -/
def Mutex.from_existing (live : String → Option String) (data : Nat)
    (mem : List Nat) : Except String (MutexModel × Nat) :=
  let mutex_id := readU32LE mem
  let path := mutexPathOpen mutex_id
  match OpenMutexA live path with
  | none => Except.error (openErrMsg path)
  | some mutex_handle =>
    Except.ok ({ handle := mutex_handle, data := data }, mutexSizeOf)


/-- Little-endian round trip: reading back the 4 bytes written for a `u32`
recovers the value. -/
lemma readU32LE_writeU32LE (id : Nat) (h : id < 2 ^ 32) :
    readU32LE (writeU32LE id) = id := by
  simp only [writeU32LE, readU32LE]
  omega

/-- Characterization of a successful `Mutex.new` run: the outcome records an
identifier whose creation did not collide, the handle to the object created
under the derived name, the record bytes holding that identifier, and the
ownership state after the initial-owner release. -/
lemma Mutex.new_ok (live : String → Bool) (data : Nat) :
    ∀ randoms out, Mutex.new live data randoms = Except.ok out →
      ∃ id, id < 2 ^ 32 ∧ live (mutexPathNew id) = false ∧
        out = { mutex := { handle := mutexPathNew id, data := data }
                memBytes := writeU32LE id
                bytesUsed := mutexSizeOf
                world := { held := 0, releaseCalls := 1 } } := by
  intro randoms
  induction randoms with
  | nil =>
    intro out h
    rw [Mutex.new] at h
    exact Except.noConfusion h
  | cons r rest ih =>
    intro out h
    rw [Mutex.new] at h
    by_cases hc : live (mutexPathNew (r % 2 ^ 32))
    · rw [show CreateMutexExA live (mutexPathNew (r % 2 ^ 32)) = none from by
        rw [CreateMutexExA, if_pos hc]] at h
      exact ih out h
    · rw [show CreateMutexExA live (mutexPathNew (r % 2 ^ 32))
          = some (mutexPathNew (r % 2 ^ 32)) from by
        rw [CreateMutexExA, if_neg hc]] at h
      have h2 : Except.ok
          ({ mutex := { handle := mutexPathNew (r % 2 ^ 32), data := data }
             memBytes := writeU32LE (r % 2 ^ 32)
             bytesUsed := mutexSizeOf
             world := { held := 0, releaseCalls := 1 } } : NewOutcome)
          = Except.ok out := h
      exact ⟨r % 2 ^ 32, Nat.mod_lt _ (by norm_num),
        Bool.not_eq_true _ ▸ hc, (Except.ok.inj h2).symm⟩

/-- A non-colliding identifier somewhere in the random stream makes
`Mutex.new` succeed. -/
lemma Mutex.new_exists (live : String → Bool) (data : Nat) :
    ∀ randoms, (∃ r ∈ randoms, live (mutexPathNew (r % 2 ^ 32)) = false) →
      ∃ out, Mutex.new live data randoms = Except.ok out := by
  intro randoms
  induction randoms with
  | nil => rintro ⟨r, hr, _⟩; cases hr
  | cons r rest ih =>
    rintro ⟨x, hx, hfree⟩
    rw [Mutex.new]
    by_cases hc : live (mutexPathNew (r % 2 ^ 32))
    · rw [show CreateMutexExA live (mutexPathNew (r % 2 ^ 32)) = none from by
        rw [CreateMutexExA, if_pos hc]]
      rcases List.mem_cons.mp hx with rfl | hx
      · rw [hfree] at hc; simp at hc
      · exact ih ⟨x, hx, hfree⟩
    · rw [show CreateMutexExA live (mutexPathNew (r % 2 ^ 32))
          = some (mutexPathNew (r % 2 ^ 32)) from by
        rw [CreateMutexExA, if_neg hc]]
      exact ⟨_, rfl⟩

/-- C1 counterexample: at the wait status `WAIT_ABANDONED` the exemplar
backend's `lock()` panics rather than returning the successful Abandoned
outcome with a guard that the claim asserts. -/
theorem lock_abandoned_panics :
    Mutex.lock (fun _ => WAIT_ABANDONED) = LockCallResult.panicked abandonedPanicMsg := rfl

/-- C1 (amended): the exemplar backend's `lock()` classifies the OS wait
status as follows — a clean wait (`WAIT_OBJECT_0`) returns a successful
acquisition with a guard; a wait reporting that the previous holder terminated
while holding the lock (`WAIT_ABANDONED`) panics with the poisoned-state
message rather than returning; any other wait status returns an error naming
the status. -/
theorem lock_wait_status_classification (wait : Nat → Nat) :
    (wait INFINITE = WAIT_OBJECT_0 → Mutex.lock wait = LockCallResult.ok) ∧
    (wait INFINITE = WAIT_ABANDONED →
      Mutex.lock wait = LockCallResult.panicked abandonedPanicMsg) ∧
    (wait INFINITE ≠ WAIT_OBJECT_0 → wait INFINITE ≠ WAIT_ABANDONED →
      Mutex.lock wait = LockCallResult.err (lockErrMsg (wait INFINITE))) := by
  refine ⟨fun h => ?_, fun h => ?_, fun h1 h2 => ?_⟩
  · rw [Mutex.lock]
    simp [h]
  · rw [Mutex.lock]
    rw [h]
    simp [WAIT_ABANDONED, WAIT_OBJECT_0]
  · rw [Mutex.lock]
    simp only [if_neg h1, if_neg h2]

/-- C1 witness: the three classifications at the concrete wait statuses
`0` (clean), `0x80` (abandoned) and `0x102` (`WAIT_TIMEOUT`). -/
theorem lock_wait_status_classification_witness :
    Mutex.lock (fun _ => 0) = LockCallResult.ok ∧
    Mutex.lock (fun _ => 0x80) = LockCallResult.panicked abandonedPanicMsg ∧
    Mutex.lock (fun _ => 0x102) = LockCallResult.err (lockErrMsg 0x102) :=
  ⟨(lock_wait_status_classification (fun _ => 0)).1 rfl,
   (lock_wait_status_classification (fun _ => 0x80)).2.1 rfl,
   (lock_wait_status_classification (fun _ => 0x102)).2.2 (by decide) (by decide)⟩

/-- C2: `try_lock` with the `Infinite` timeout performs the same OS wait with
the same `INFINITE` argument and the same classification as `lock()`, so on any
handle in any state (any behavior of the abstracted OS wait) the two calls
return exactly the same outcome. -/
theorem try_lock_infinite_eq_lock (wait : Nat → Nat) :
    Mutex.try_lock wait Timeout.Infinite = Mutex.lock wait := rfl

/-- C3: `deny_abandoned` maps `Ok(guard)` to a successful guard and both
`Abandoned(guard)` and `Failed(err)` to an error, for the lock result type and
likewise for the read-lock result type. -/
theorem deny_abandoned_mapping (L : Type) (g : LockGuard L) (rg : ReadLockGuard L)
    (e : String) :
    (LockResult.Ok g).deny_abandoned = Except.ok g ∧
    (LockResult.Abandoned g).deny_abandoned = Except.error poisonedMsg ∧
    (LockResult.Failed e : LockResult L).deny_abandoned = Except.error e ∧
    (ReadLockResult.Ok rg).deny_abandoned = Except.ok rg ∧
    (ReadLockResult.Abandoned rg).deny_abandoned = Except.error poisonedMsg ∧
    (ReadLockResult.Failed e : ReadLockResult L).deny_abandoned = Except.error e :=
  ⟨rfl, rfl, rfl, rfl, rfl, rfl⟩

/-- C4: converting an exclusive guard to a shared guard performs no OS call at
all (in particular no release: `std::mem::forget` neutralizes the source
guard's destructor), the new shared guard holds the same lock reference, and
over the combined lifetime — conversion followed by the shared guard's
destruction — `release()` is invoked exactly once, by that destruction. -/
theorem into_read_guard_single_release (w : World) :
    LockGuard.into_read_guard_world w = w ∧
    (∀ (L : Type) (g : LockGuard L), (LockGuard.into_read_guard g).lock = g.lock) ∧
    (ReadLockGuard.dropRun (LockGuard.into_read_guard_world w)).2.releaseCalls
      = w.releaseCalls + 1 := by
  refine ⟨rfl, fun L g => rfl, ?_⟩
  by_cases h : w.held = 0 <;>
    simp [ReadLockGuard.dropRun, Mutex.release, ReleaseMutex,
      LockGuard.into_read_guard_world, h]

/-- C5: destruction of an exclusive or shared guard always invokes `release()`
exactly once, and exits normally when that call succeeds but panics (a fatal
error, not a recoverable one) with the release error when it fails. -/
theorem guard_drop_always_releases (w : World) :
    (LockGuard.dropRun w).2.releaseCalls = w.releaseCalls + 1 ∧
    (ReadLockGuard.dropRun w).2.releaseCalls = w.releaseCalls + 1 ∧
    ((Mutex.release w).1 = Except.error releaseErrMsg →
      (LockGuard.dropRun w).1 = DropOutcome.panicked releaseErrMsg ∧
      (ReadLockGuard.dropRun w).1 = DropOutcome.panicked releaseErrMsg) ∧
    ((Mutex.release w).1 = Except.ok () →
      (LockGuard.dropRun w).1 = DropOutcome.ok ∧
      (ReadLockGuard.dropRun w).1 = DropOutcome.ok) := by
  by_cases h : w.held = 0 <;>
    simp [LockGuard.dropRun, ReadLockGuard.dropRun, Mutex.release, ReleaseMutex, h]

/-- C5 witness: at the concrete states `⟨1, 0⟩` (holding) and `⟨0, 0⟩` (not
holding): the drop of either guard releases once, returns normally in the
first state and panics in the second. -/
theorem guard_drop_always_releases_witness :
    (LockGuard.dropRun ⟨1, 0⟩).2.releaseCalls = 1 ∧
    (LockGuard.dropRun ⟨1, 0⟩).1 = DropOutcome.ok ∧
    (LockGuard.dropRun ⟨0, 0⟩).1 = DropOutcome.panicked releaseErrMsg ∧
    (ReadLockGuard.dropRun ⟨0, 0⟩).1 = DropOutcome.panicked releaseErrMsg :=
  ⟨(guard_drop_always_releases ⟨1, 0⟩).1,
   ((guard_drop_always_releases ⟨1, 0⟩).2.2.2 rfl).1,
   ((guard_drop_always_releases ⟨0, 0⟩).2.2.1 rfl).1,
   ((guard_drop_always_releases ⟨0, 0⟩).2.2.1 rfl).2⟩

/-- C6: `release()` on a handle whose caller does not hold the lock returns
the release error as an ordinary error value (the function's only exits are
returned values — no panic, so the process does not crash), and `release()`
while holding the lock (hold count ≥ 1, the state after a successful
acquisition) returns success. -/
theorem release_requires_ownership (w : World) :
    (w.held = 0 → (Mutex.release w).1 = Except.error releaseErrMsg) ∧
    (0 < w.held → (Mutex.release w).1 = Except.ok ()) := by
  refine ⟨fun h => ?_, fun h => ?_⟩
  · simp [Mutex.release, ReleaseMutex, h]
  · simp [Mutex.release, ReleaseMutex, h.ne']

/-- C6 witness: the unheld state `⟨0, 0⟩` yields the release error, the held
state `⟨1, 0⟩` yields success. -/
theorem release_requires_ownership_witness :
    (Mutex.release ⟨0, 0⟩).1 = Except.error releaseErrMsg ∧
    (Mutex.release ⟨1, 0⟩).1 = Except.ok () :=
  ⟨(release_requires_ownership ⟨0, 0⟩).1 rfl,
   (release_requires_ownership ⟨1, 0⟩).2 (by decide)⟩

/-- C7: the default `rlock` equals `lock()` followed by guard conversion with
the Ok/Abandoned/Failed classification preserved, and the default
`try_rlock(timeout)` likewise equals `try_lock(timeout)` followed by the same
conversion. -/
theorem rlock_refines_lock_then_convert (L : Type) (self : LockImplModel L)
    (timeout : Timeout) :
    self.rlock = specConvertToRead self.lock ∧
    self.try_rlock timeout = specConvertToRead (self.try_lock timeout) := by
  obtain ⟨lk, tl⟩ := self
  constructor
  · cases lk <;> rfl
  · cases h : tl timeout <;>
      simp [LockImplModel.try_rlock, specConvertToRead, h]

/-- C8: provided the random stream offers some identifier whose derived name
is not already live, `new()` succeeds: it returns a handle to an object created
under a non-colliding identifier's derived name, writes that identifier into
the shared record, reports the record size as bytes used, and has released its
initial ownership exactly once, so the returned handle is in the unheld
state. -/
theorem new_creates_writes_id_and_releases (live : String → Bool) (data : Nat)
    (randoms : List Nat)
    (hfree : ∃ r ∈ randoms, live (mutexPathNew (r % 2 ^ 32)) = false) :
    ∃ out id, Mutex.new live data randoms = Except.ok out ∧
      id < 2 ^ 32 ∧
      live (mutexPathNew id) = false ∧
      out.mutex.handle = mutexPathNew id ∧
      out.memBytes = writeU32LE id ∧
      out.bytesUsed = mutexSizeOf ∧
      out.world.held = 0 ∧
      out.world.releaseCalls = 1 := by
  obtain ⟨out, hout⟩ := Mutex.new_exists live data randoms hfree
  obtain ⟨id, hlt, hl, heq⟩ := Mutex.new_ok live data randoms out hout
  exact ⟨out, id, hout, hlt, hl, by rw [heq], by rw [heq], by rw [heq],
    by rw [heq], by rw [heq]⟩

/-- C8 witness: with an empty namespace and the stream `[5]`, `new()` returns
the outcome created under identifier 5. -/
theorem new_creates_writes_id_and_releases_witness :
    ∃ out id, Mutex.new (fun _ => false) 7 [5] = Except.ok out ∧
      id < 2 ^ 32 ∧
      (fun _ => false : String → Bool) (mutexPathNew id) = false ∧
      out.mutex.handle = mutexPathNew id ∧
      out.memBytes = writeU32LE id ∧
      out.bytesUsed = mutexSizeOf ∧
      out.world.held = 0 ∧
      out.world.releaseCalls = 1 :=
  new_creates_writes_id_and_releases (fun _ => false) 7 [5]
    ⟨5, List.mem_singleton.mpr rfl, rfl⟩

/-- C9: `from_existing()` reads the identifier from the record, derives the
object name from it, and opens the existing object: when the namespace has no
live object under that name (the open returns no handle) it returns the attach
error and no handle; when a live object exists it returns its handle (opening,
not creating) together with the record size. -/
theorem from_existing_opens_or_fails (live : String → Option String) (data : Nat)
    (mem : List Nat) :
    (live (mutexPathOpen (readU32LE mem)) = none →
      Mutex.from_existing live data mem
        = Except.error (openErrMsg (mutexPathOpen (readU32LE mem)))) ∧
    (∀ h, live (mutexPathOpen (readU32LE mem)) = some h →
      Mutex.from_existing live data mem
        = Except.ok ({ handle := h, data := data }, mutexSizeOf)) := by
  refine ⟨fun hnone => ?_, fun h hsome => ?_⟩
  · rw [Mutex.from_existing]
    rw [show OpenMutexA live (mutexPathOpen (readU32LE mem)) = none from hnone]
  · rw [Mutex.from_existing]
    rw [show OpenMutexA live (mutexPathOpen (readU32LE mem)) = some h from hsome]

/-- C9 witness: on the record bytes `[5,0,0,0]` (identifier 5, name
`mutex_5`): an empty namespace yields the attach error, a namespace holding
`mutex_5` yields its handle. -/
theorem from_existing_opens_or_fails_witness :
    Mutex.from_existing (fun _ => none) 7 [5, 0, 0, 0]
      = Except.error (openErrMsg (mutexPathOpen (readU32LE [5, 0, 0, 0]))) ∧
    Mutex.from_existing (fun p => some p) 7 [5, 0, 0, 0]
      = Except.ok ({ handle := mutexPathOpen 5, data := 7 }, mutexSizeOf) :=
  ⟨(from_existing_opens_or_fails (fun _ => none) 7 [5, 0, 0, 0]).1 rfl,
   (from_existing_opens_or_fails (fun p => some p) 7 [5, 0, 0, 0]).2
     (mutexPathOpen 5) rfl⟩

/-- C10: record round-trip — every `u32` identifier written as record bytes is
read back unchanged; the name derivations of `new()` and `from_existing()`
agree on every identifier; and consequently, attaching with `from_existing()`
to the record written by a successful `new()`, in a namespace where the object
`new()` created is live, opens exactly that object (same handle, same
protected-data address). -/
theorem record_roundtrip :
    (∀ id : Nat, id < 2 ^ 32 → readU32LE (writeU32LE id) = id) ∧
    (∀ id : Nat, mutexPathOpen id = mutexPathNew id) ∧
    (∀ (live : String → Bool) (data : Nat) (randoms : List Nat) (out : NewOutcome),
      Mutex.new live data randoms = Except.ok out →
      Mutex.from_existing
        (fun p => if p = out.mutex.handle then some p else none) data out.memBytes
        = Except.ok (out.mutex, mutexSizeOf)) := by
  refine ⟨readU32LE_writeU32LE, fun id => rfl, ?_⟩
  intro live data randoms out hnew
  obtain ⟨id, hlt, hl, hout⟩ := Mutex.new_ok live data randoms out hnew
  subst hout
  rw [Mutex.from_existing]
  rw [show readU32LE (writeU32LE id) = id from readU32LE_writeU32LE id hlt]
  rw [show OpenMutexA
      (fun p => if p = mutexPathNew id then some p else none) (mutexPathOpen id)
      = some (mutexPathNew id) from by rw [OpenMutexA]; simp [mutexPathOpen, mutexPathNew]]

/-- C10 witness: at the concrete identifier `0x12345678` the byte round trip
returns it and the two name derivations agree; and for the concrete `new()`
run with an empty namespace and stream `[5]` — which creates `mutex_5` and
writes the record bytes `[5,0,0,0]` — attaching with `from_existing()` in a
namespace where `mutex_5` is live opens exactly that object. -/
theorem record_roundtrip_witness :
    readU32LE (writeU32LE 0x12345678) = 0x12345678 ∧
    mutexPathOpen 0x12345678 = mutexPathNew 0x12345678 ∧
    Mutex.from_existing
      (fun p => if p = "mutex_5" then some p else none) 7 [5, 0, 0, 0]
      = Except.ok ({ handle := "mutex_5", data := 7 }, mutexSizeOf) :=
  ⟨record_roundtrip.1 0x12345678 (by norm_num),
   record_roundtrip.2.1 0x12345678,
   record_roundtrip.2.2 (fun _ => false) 7 [5]
     { mutex := { handle := "mutex_5", data := 7 }
       memBytes := [5, 0, 0, 0]
       bytesUsed := mutexSizeOf
       world := { held := 0, releaseCalls := 1 } }
     (by rfl)⟩
